import Mathlib

/-
  Verification of the kaneru-bar notification subsystem.

  Shallow embedding of:
  - src/utils/notification.rs        (Notification entity, Urgency decoding)
  - src/utils/notification_server.rs (Notify / CloseNotification RPCs, id counter)
  - src/utils/notification_manager.rs (orchestrator: popups map, stacking order, layout)
  - src/windows/notification_popup.rs (popup timer / hover / closing state machine)

  Machine integers are modelled as Nat (u32, with explicit % 2^32 where the
  counter can wrap) and Int (i32 expire_timeout).  Signal emission, popup
  presentation and persistence calls are modelled as an explicit effect list.
-/

set_option linter.unnecessarySeqFocus false
set_option linter.unnecessarySimpa false

namespace Kaneru

/-- Urgency levels, from `enum Urgency` in notification.rs. -/
inductive Urgency
  | low
  | normal
  | critical
deriving Repr, DecidableEq

/-- Notification record, from `struct Notification` in notification.rs. -/
structure Notification where
  id : Nat
  appName : String
  replacesId : Nat
  appIcon : String
  summary : String
  body : String
  actions : List String
  expireTimeout : Int
  urgency : Urgency
  imagePath : Option String
  resident : Bool
deriving Repr, DecidableEq

/-- DEFAULT_TIMEOUT in notification_popup.rs: 5 seconds, in milliseconds. -/
def DEFAULT_TIMEOUT_MS : Nat := 5000

/-- CRITICAL_TIMEOUT in notification_popup.rs: 10 seconds, in milliseconds. -/
def CRITICAL_TIMEOUT_MS : Nat := 10000

/-- Urgency-keyed fallback duration used by both `reset_close_timer` and the
pointer-leave handler in notification_popup.rs. -/
def fallbackTimeoutMs : Urgency → Nat
  | .critical => CRITICAL_TIMEOUT_MS
  | _ => DEFAULT_TIMEOUT_MS

/-- Effective auto-close duration computed by `reset_close_timer`
(notification_popup.rs lines 391-431); `none` means no timer is armed.
Mirrors the Rust match on `expire_timeout`: `0` gives no timer, `-1` gives the
urgency fallback unless resident, positive values are taken as milliseconds,
and any other (negative, below -1) value gives DEFAULT_TIMEOUT. -/
def resetCloseTimerDuration (n : Notification) : Option Nat :=
  if n.expireTimeout = 0 then none
  else if n.expireTimeout = -1 then
    if n.resident then none else some (fallbackTimeoutMs n.urgency)
  else if n.expireTimeout > 0 then some n.expireTimeout.toNat
  else some DEFAULT_TIMEOUT_MS

/-- A resident, critical notification with expire_timeout -2 (zero-or-negative
but not -1). -/
def residentNegativeTwo : Notification :=
  { id := 1, appName := "app", replacesId := 0, appIcon := "", summary := "s",
    body := "", actions := [], expireTimeout := -2, urgency := .critical,
    imagePath := none, resident := true }

/-- C1 counterexample: the claim says a negative expire_timeout other than -1
gets the urgency fallback (10 s for Critical) and that a resident notification
with a zero or negative expire_timeout never auto-closes.  The code's
`reset_close_timer` only treats -1 that way: for expire_timeout = -2 the
catch-all arm yields DEFAULT_TIMEOUT (5 s) regardless of urgency and regardless
of the resident flag, so this resident critical notification auto-closes after
5 s instead of never. -/
theorem c1_claim_counterexample :
    residentNegativeTwo.resident = true ∧
    residentNegativeTwo.expireTimeout < 0 ∧
    residentNegativeTwo.urgency = Urgency.critical ∧
    resetCloseTimerDuration residentNegativeTwo = some DEFAULT_TIMEOUT_MS := by
  refine ⟨rfl, by decide, rfl, rfl⟩

/-- C1 (amended): the popup arms no timer exactly when expire_timeout is 0 or
when it is exactly -1 with resident true; a positive expire_timeout is used as
milliseconds; expire_timeout = -1 with resident false uses the urgency
fallback (10 s Critical, 5 s otherwise); any other negative value uses the
5 s default regardless of urgency and of the resident flag. -/
theorem c1_effective_duration (n : Notification) :
    (resetCloseTimerDuration n = none ↔
      (n.expireTimeout = 0 ∨ (n.expireTimeout = -1 ∧ n.resident = true))) ∧
    (0 < n.expireTimeout →
      resetCloseTimerDuration n = some n.expireTimeout.toNat) ∧
    (n.expireTimeout = -1 → n.resident = false →
      resetCloseTimerDuration n = some (fallbackTimeoutMs n.urgency)) ∧
    (n.expireTimeout < -1 →
      resetCloseTimerDuration n = some DEFAULT_TIMEOUT_MS) := by
  unfold resetCloseTimerDuration
  split_ifs with h0 h1 hr hp <;> refine ⟨?_, ?_, ?_, ?_⟩ <;> simp_all <;> omega

/-- Witness for `c1_effective_duration` at a concrete notification with a
positive timeout. -/
theorem c1_effective_duration_witness :
    resetCloseTimerDuration { residentNegativeTwo with expireTimeout := 250 }
      = some 250 :=
  (c1_effective_duration _).2.1 (by decide)

/-- Timer-relevant popup state: the `is_closing` latch and the armed close
timer (the content of `close_timer_source_id`, abstracted to its duration). -/
structure HoverState where
  isClosing : Bool
  timer : Option Nat
deriving Repr, DecidableEq

/-- Popup state right after construction: `reset_close_timer` has been run on
the notification (notification_popup.rs line 271). -/
def initialHoverState (n : Notification) : HoverState :=
  { isClosing := false, timer := resetCloseTimerDuration n }

/-- Pointer-enter handler (`connect_enter`, notification_popup.rs lines
276-280): unconditionally takes and removes any armed timer. -/
def enterHandler (s : HoverState) : HoverState :=
  { s with timer := none }

/-- Pointer-leave handler (`connect_leave`, notification_popup.rs lines
289-322): no-op while closing or while a timer is armed; otherwise arms the
urgency fallback, except that a resident popup arms nothing. -/
def leaveHandler (n : Notification) (s : HoverState) : HoverState :=
  if s.isClosing then s
  else if s.timer.isSome then s
  else if n.resident then s
  else { s with timer := some (fallbackTimeoutMs n.urgency) }

/-- Hover events delivered by the motion controller. -/
inductive HoverEvent
  | enter
  | leave
deriving Repr, DecidableEq

/-- One hover event applied to the popup state. -/
def hoverStep (n : Notification) (s : HoverState) : HoverEvent → HoverState
  | .enter => enterHandler s
  | .leave => leaveHandler n s

/-- Helper: on a resident notification no hover event ever arms a timer. -/
theorem hoverStep_resident_timer_none (n : Notification) (hres : n.resident = true)
    (s : HoverState) (h : s.timer = none) (e : HoverEvent) :
    (hoverStep n s e).timer = none := by
  cases e with
  | enter => simpa [hoverStep, enterHandler]
  | leave => simp [hoverStep, leaveHandler, h, hres]

/-- Helper: on a resident notification, a timerless state stays timerless
across any sequence of hover events. -/
theorem hoverFold_resident_timer_none (n : Notification) (hres : n.resident = true)
    (evs : List HoverEvent) :
    ∀ s : HoverState, s.timer = none →
      ((evs.foldl (hoverStep n) s).timer = none) := by
  induction evs with
  | nil => intro s h; exact h
  | cons e rest ih =>
    intro s h
    exact ih _ (hoverStep_resident_timer_none n hres s h e)

/-- C7: for a popup that is not closing, a pointer-enter followed by a
pointer-leave arms exactly the urgency-keyed fallback timer (10 s Critical,
5 s otherwise) and no timer at all when resident; the armed duration does not
depend on expire_timeout; and a resident notification with
expire_timeout = -1 has no timer armed after any sequence of hover events, so
it never auto-closes. -/
theorem c7_hover_rearm (n : Notification) (s : HoverState)
    (hc : s.isClosing = false) :
    ((hoverStep n (hoverStep n s .enter) .leave).timer
      = if n.resident then none else some (fallbackTimeoutMs n.urgency)) ∧
    (∀ et : Int,
      (hoverStep { n with expireTimeout := et }
        (hoverStep { n with expireTimeout := et } s .enter) .leave).timer
      = (hoverStep n (hoverStep n s .enter) .leave).timer) ∧
    (n.resident = true → n.expireTimeout = -1 →
      ∀ evs : List HoverEvent,
        (evs.foldl (hoverStep n) (initialHoverState n)).timer = none) := by
  refine ⟨?_, ?_, ?_⟩
  · simp only [hoverStep, enterHandler, leaveHandler, hc]
    by_cases hres : n.resident <;> simp [hres, hc]
  · intro et
    simp only [hoverStep, enterHandler, leaveHandler, hc]
  · intro hres hexp evs
    have hinit : (initialHoverState n).timer = none := by
      simp [initialHoverState, resetCloseTimerDuration, hexp, hres]
    exact hoverFold_resident_timer_none n hres evs _ hinit

/-- Witness for `c7_hover_rearm` at a concrete resident critical notification
with expire_timeout -1, starting from its initial (non-closing) state. -/
theorem c7_hover_rearm_witness :
    (hoverStep { residentNegativeTwo with expireTimeout := -1 }
        (hoverStep { residentNegativeTwo with expireTimeout := -1 }
          (initialHoverState { residentNegativeTwo with expireTimeout := -1 })
          .enter) .leave).timer = none ∧
    ((List.replicate 6 HoverEvent.enter ++ List.replicate 6 HoverEvent.leave).foldl
        (hoverStep { residentNegativeTwo with expireTimeout := -1 })
        (initialHoverState { residentNegativeTwo with expireTimeout := -1 })).timer
      = none := by
  have h := c7_hover_rearm { residentNegativeTwo with expireTimeout := -1 }
    (initialHoverState { residentNegativeTwo with expireTimeout := -1 }) (by rfl)
  refine ⟨?_, h.2.2 rfl rfl _⟩
  have h1 := h.1
  simpa using h1

/-- Commands a popup sends to the orchestrator, from `enum PopupCommand` in
notification_popup.rs. -/
inductive PopupCommand
  | close (id : Nat)
  | actionInvoked (id : Nat) (key : String)
deriving Repr, DecidableEq

/-- Close-relevant popup state: the `is_closing` latch, the armed glib timer
source, the number of destroy sequences started by `close_popup`, and the
commands sent to the orchestrator so far. -/
structure PopupMachine where
  isClosing : Bool
  timer : Option Nat
  destroyCount : Nat
  sent : List PopupCommand
deriving Repr, DecidableEq

/-- Close-triggering events on one popup. -/
inductive PopupEvent
  | closeClick
  | actionClick (key : String)
  | timerFire
  | closeCall
deriving Repr, DecidableEq

/-- One close-triggering event applied to a popup, from notification_popup.rs:
the close-button handler (lines 131-145) and action-button handler (lines
212-226) check then set `is_closing` and send one command; the armed timer
callback (lines 419-428) checks `is_closing` but does not set it, consumes the
timer and sends `Close`; `close_popup` (lines 340-388) checks then sets
`is_closing`, cancels the timer and runs the destroy sequence, sending no
command. -/
def popupStep (id : Nat) (s : PopupMachine) : PopupEvent → PopupMachine
  | .closeClick =>
    if s.isClosing then s
    else { s with isClosing := true, sent := s.sent ++ [.close id] }
  | .actionClick key =>
    if s.isClosing then s
    else { s with isClosing := true, sent := s.sent ++ [.actionInvoked id key] }
  | .timerFire =>
    match s.timer with
    | none => s
    | some _ =>
      if s.isClosing then s
      else { s with timer := none, sent := s.sent ++ [.close id] }
  | .closeCall =>
    if s.isClosing then s
    else { s with isClosing := true, timer := none,
                  destroyCount := s.destroyCount + 1 }

/-- Popup state at construction time, before any close-triggering event. -/
def initialPopupMachine (t : Option Nat) : PopupMachine :=
  { isClosing := false, timer := t, destroyCount := 0, sent := [] }

/-- C9 counterexample: the claim says at most one Close or ActionInvoked
command is sent no matter how many close-triggering events occur.  The timer
callback checks `is_closing` but never sets it, so a timer fire followed by a
close-button click sends two `Close` commands for the same popup. -/
theorem c9_claim_counterexample :
    ([PopupEvent.timerFire, PopupEvent.closeClick].foldl (popupStep 7)
        (initialPopupMachine (some DEFAULT_TIMEOUT_MS))).sent
      = [PopupCommand.close 7, PopupCommand.close 7] := by
  rfl

/-- Invariant used for the amended C9 bound: the destroy count is bounded by
the latch and the command count by the latch plus the consumed timer. -/
def PopupBound (s : PopupMachine) : Prop :=
  s.destroyCount ≤ (if s.isClosing then 1 else 0) ∧
  s.sent.length ≤ (if s.isClosing then 1 else 0) +
    (if s.timer.isSome then 0 else 1)

/-- Helper: every close-triggering event preserves the C9 bound. -/
theorem popupStep_bound (id : Nat) (s : PopupMachine) (e : PopupEvent)
    (h : PopupBound s) : PopupBound (popupStep id s e) := by
  obtain ⟨b, t, d, q⟩ := s
  cases e <;> cases b <;> cases t <;>
    simp_all [popupStep, PopupBound] <;> omega

/-- Helper: the C9 bound holds after any event sequence from a bounded state. -/
theorem popupFold_bound (id : Nat) (evs : List PopupEvent) :
    ∀ s : PopupMachine, PopupBound s →
      PopupBound (evs.foldl (popupStep id) s) := by
  induction evs with
  | nil => intro s h; exact h
  | cons e rest ih => intro s h; exact ih _ (popupStep_bound id s e h)

/-- C9 (amended): the `is_closing` latch makes every handler a no-op once set,
and starting from a fresh popup at most one destroy sequence ever runs and at
most two commands are ever sent (at most one from the latching button
handlers, plus at most one from the timer callback, which checks the latch
but does not set it). -/
theorem c9_closing_latch (id : Nat) (t : Option Nat) (evs : List PopupEvent) :
    ((evs.foldl (popupStep id) (initialPopupMachine t)).destroyCount ≤ 1) ∧
    ((evs.foldl (popupStep id) (initialPopupMachine t)).sent.length ≤ 2) ∧
    (∀ (s : PopupMachine) (e : PopupEvent), s.isClosing = true →
      popupStep id s e = s) := by
  have hb : PopupBound (initialPopupMachine t) := by
    constructor <;> simp [initialPopupMachine]
  have h := popupFold_bound id evs (initialPopupMachine t) hb
  obtain ⟨hd, hs⟩ := h
  refine ⟨?_, ?_, ?_⟩
  · split at hd <;> omega
  · split at hs <;> split at hs <;> omega
  · intro s e hc
    cases e with
    | closeClick => simp [popupStep, hc]
    | actionClick key => simp [popupStep, hc]
    | timerFire => cases ht : s.timer <;> simp [popupStep, ht, hc]
    | closeCall => simp [popupStep, hc]

/-- Observable effects of the orchestrator and the protocol server: bus
signal emission requests, popup close/present calls, and history
persistence.  The alphabet includes `persistHistory` so that the absence of
any persistence call in the handlers is expressible. -/
inductive Effect
  | emitNotificationClosed (id reason : Nat)
  | emitActionInvoked (id : Nat) (key : String)
  | closePopupStarted (id : Nat)
  | presentPopup (id : Nat)
  | persistHistory
deriving Repr, DecidableEq

/-- Orchestrator state, from `struct NotificationManager` in
notification_manager.rs: the key set of the `popups` HashMap and the
`popup_order` vector.  The struct holds no history sequence. -/
structure ManagerState where
  popups : List Nat
  order : List Nat
deriving Repr, DecidableEq

/-- Manager state at startup: no popups, empty order. -/
def emptyManagerState : ManagerState :=
  { popups := [], order := [] }

/-- Key-set insertion with HashMap semantics: inserting an existing key
replaces the value and leaves the key set unchanged. -/
def insertKey (id : Nat) (l : List Nat) : List Nat :=
  if id ∈ l then l else l ++ [id]

/-- BASE_MARGIN_TOP in notification_manager.rs. -/
def BASE_MARGIN_TOP : Int := 20

/-- NOTIFICATION_SPACING in notification_manager.rs. -/
def NOTIFICATION_SPACING : Int := 10

/-- Placeholder height used when an id in `popup_order` has no popup in the
map (notification_manager.rs lines 143 and 195). -/
def MISSING_POPUP_PLACEHOLDER : Int := 100

/-- `display_notification` (notification_manager.rs lines 40-76): close and
drop from `order` any popup being replaced (the replaced popup stays in the
`popups` map until overwritten by the insert), then insert the new popup and
append its id to `popup_order`. -/
def displayNotification (n : Notification) (s : ManagerState) :
    ManagerState × List Effect :=
  let step1 :=
    if n.replacesId ≠ 0 then
      if n.replacesId ∈ s.popups then
        ({ s with order := s.order.erase n.replacesId },
          [Effect.closePopupStarted n.replacesId])
      else if n.replacesId ≠ n.id ∧ n.id ∈ s.popups then
        ({ s with order := s.order.erase n.id },
          [Effect.closePopupStarted n.id])
      else (s, [])
    else
      if n.id ∈ s.popups then
        ({ s with order := s.order.erase n.id },
          [Effect.closePopupStarted n.id])
      else (s, [])
  ({ popups := insertKey n.id step1.1.popups,
     order := step1.1.order ++ [n.id] },
    step1.2 ++ [Effect.presentPopup n.id])

/-- `handle_popup_command` (notification_manager.rs lines 78-130).  `Close`
removes the popup if present and only then requests
`NotificationClosed(id, 1)`.  `ActionInvoked` spawns the emission of
`ActionInvoked(id, key)` followed by `NotificationClosed(id, 2)` before and
independently of the membership check, then removes the popup if present. -/
def handlePopupCommand (c : PopupCommand) (s : ManagerState) :
    ManagerState × List Effect :=
  match c with
  | .close id =>
    if id ∈ s.popups then
      ({ popups := s.popups.erase id, order := s.order.erase id },
        [Effect.closePopupStarted id, Effect.emitNotificationClosed id 1])
    else (s, [])
  | .actionInvoked id key =>
    if id ∈ s.popups then
      ({ popups := s.popups.erase id, order := s.order.erase id },
        [Effect.emitActionInvoked id key, Effect.emitNotificationClosed id 2,
         Effect.closePopupStarted id])
    else
      (s, [Effect.emitActionInvoked id key, Effect.emitNotificationClosed id 2])

/-- Height of one stacking slot for id: the popup's measured height clamped
to at least 1 when the popup exists, the fixed placeholder otherwise
(notification_manager.rs lines 139-144 and 192-195). -/
def stackEntryHeight (popups : List Nat) (height : Nat → Int) (id : Nat) : Int :=
  if id ∈ popups then max (height id) 1 else MISSING_POPUP_PLACEHOLDER

/-- `calculate_next_vertical_position` (notification_manager.rs lines
136-147), parametrised by the externally measured window heights. -/
def calculateNextVerticalPosition (s : ManagerState) (height : Nat → Int) : Int :=
  s.order.foldl
    (fun pos id => pos + stackEntryHeight s.popups height id + NOTIFICATION_SPACING)
    BASE_MARGIN_TOP

/-- Accumulation loop of `reposition_notifications` (notification_manager.rs
lines 188-199) building the `positions_with_heights` list. -/
def repositionGo (popups : List Nat) (height : Nat → Int) :
    List Nat → Int → List (Nat × Int)
  | [], _ => []
  | id :: rest, y =>
    (id, y) ::
      repositionGo popups height rest
        (y + stackEntryHeight popups height id + NOTIFICATION_SPACING)

/-- Target offsets computed by `reposition_notifications` for every id in
`popup_order` (the second loop then applies each to the popup if it exists). -/
def repositionTargets (s : ManagerState) (height : Nat → Int) : List (Nat × Int) :=
  repositionGo s.popups height s.order BASE_MARGIN_TOP

/-- Modulus of the u32 id counter (`AtomicU32::fetch_add` wraps). -/
def U32_MOD : Nat := 2 ^ 32

/-- Inputs of the `Notify` RPC (notification_server.rs lines 67-78), with the
hint map reduced to the three hints the server reads: the raw urgency byte,
the image path, and the resident flag. -/
structure NotifyArgs where
  appName : String
  replacesId : Nat
  appIcon : String
  summary : String
  body : String
  actions : List String
  urgencyHint : Option Nat
  imagePathHint : Option String
  residentHint : Option Bool
  expireTimeout : Int
deriving Repr, DecidableEq

/-- Urgency hint decoding: raw byte 0/1/2 maps to Low/Normal/Critical; an
absent hint or any other byte (a TryFrom error swallowed by `.ok()`)
defaults to Normal (notification.rs lines 13-25, notification_server.rs
lines 100-103). -/
def decodeUrgency : Option Nat → Urgency
  | some 0 => .low
  | some 1 => .normal
  | some 2 => .critical
  | _ => .normal

/-- Resident hint decoding: defaults to false (notification_server.rs lines
109-112). -/
def decodeResident : Option Bool → Bool
  | some b => b
  | none => false

/-- Protocol server state: the NEXT_NOTIFICATION_ID counter (a process-wide
AtomicU32 initialised to 1) and the active-notification map. -/
structure ServerState where
  nextId : Nat
  active : List (Nat × Notification)
deriving Repr, DecidableEq

/-- Server state at process start. -/
def initialServerState : ServerState :=
  { nextId := 1, active := [] }

/-- HashMap insertion on the active-map association list: any previous entry
for the key is dropped and the new binding appended. -/
def insertActive (id : Nat) (n : Notification)
    (l : List (Nat × Notification)) : List (Nat × Notification) :=
  (l.filter (fun p => p.1 != id)) ++ [(id, n)]

/-- HashMap removal on the active-map association list. -/
def removeActive (id : Nat) (l : List (Nat × Notification)) :
    List (Nat × Notification) :=
  l.filter (fun p => p.1 != id)

/-- Notification built by `Notify` from its arguments and the assigned id
(notification_server.rs lines 114-126). -/
def buildNotification (a : NotifyArgs) (newId : Nat) : Notification :=
  { id := newId, appName := a.appName, replacesId := a.replacesId,
    appIcon := a.appIcon, summary := a.summary, body := a.body,
    actions := a.actions, expireTimeout := a.expireTimeout,
    urgency := decodeUrgency a.urgencyHint,
    imagePath := a.imagePathHint,
    resident := decodeResident a.residentHint }

/-- The `Notify` RPC (notification_server.rs lines 67-142).  The id is taken
from the counter (post-incrementing it, with u32 wrap) when replaces_id is 0
and is replaces_id otherwise; the notification is recorded in the active map
and then forwarded to the orchestrator channel; `sendOk` models whether that
channel send succeeds.  On failure the call returns an internal error but the
counter increment and the active-map insertion are kept; the middle component
is the notification delivered to the orchestrator, if any. -/
def notify (a : NotifyArgs) (sendOk : Bool) (s : ServerState) :
    ServerState × Option Notification × Except String Nat :=
  let newId := if a.replacesId = 0 then s.nextId else a.replacesId
  let counterAfter :=
    if a.replacesId = 0 then (s.nextId + 1) % U32_MOD else s.nextId
  let n := buildNotification a newId
  let s1 : ServerState :=
    { nextId := counterAfter, active := insertActive newId n s.active }
  if sendOk then (s1, some n, Except.ok newId)
  else (s1, none,
    Except.error "Internal error: Failed to queue notification for display")

/-- The `CloseNotification` RPC (notification_server.rs lines 144-165):
remove the id from the active map; emit `NotificationClosed(id, 3)` only if
it was present; always succeed. -/
def closeNotification (id : Nat) (s : ServerState) :
    ServerState × List Effect × Except String Unit :=
  let present := (s.active.lookup id).isSome
  let s1 : ServerState := { s with active := removeActive id s.active }
  if present then (s1, [Effect.emitNotificationClosed id 3], Except.ok ())
  else (s1, [], Except.ok ())

/-- Events driving the combined server-plus-orchestrator system: a `Notify`
RPC (whose channel send may fail) or a popup command on the command channel. -/
inductive SysEvent
  | notifyCall (a : NotifyArgs) (sendOk : Bool)
  | popupCmd (c : PopupCommand)

/-- Combined state of the protocol server and the orchestrator. -/
structure SysState where
  server : ServerState
  manager : ManagerState

/-- System state at process start. -/
def initialSysState : SysState :=
  { server := initialServerState, manager := emptyManagerState }

/-- One system step: a `Notify` call runs the server RPC and, when the
channel send succeeds, the orchestrator displays the forwarded notification;
a popup command runs `handle_popup_command`. -/
def sysStep (st : SysState) : SysEvent → SysState
  | .notifyCall a sOk =>
    let r := notify a sOk st.server
    match r.2.1 with
    | some n => { server := r.1, manager := (displayNotification n st.manager).1 }
    | none => { server := r.1, manager := st.manager }
  | .popupCmd c => { st with manager := (handlePopupCommand c st.manager).1 }

/-- System state after a sequence of events from process start. -/
def sysRun (evs : List SysEvent) : SysState :=
  evs.foldl sysStep initialSysState

/-- Ordering invariant of the orchestrator: no duplicate ids in
`popup_order` (and none among the map keys), and `popup_order` holds exactly
the key set of `popups`. -/
def ManagerInv (s : ManagerState) : Prop :=
  s.order.Nodup ∧ s.popups.Nodup ∧ ∀ x, x ∈ s.order ↔ x ∈ s.popups

/-- Helper: membership in an inserted key set. -/
theorem mem_insertKey (id x : Nat) (l : List Nat) :
    x ∈ insertKey id l ↔ x = id ∨ x ∈ l := by
  unfold insertKey
  split_ifs with h
  · constructor
    · exact fun hx => Or.inr hx
    · rintro (rfl | hx)
      · exact h
      · exact hx
  · simp [List.mem_append, or_comm]

/-- Helper: key-set insertion preserves distinctness. -/
theorem nodup_insertKey (id : Nat) (l : List Nat) (h : l.Nodup) :
    (insertKey id l).Nodup := by
  unfold insertKey
  split_ifs with hmem
  · exact h
  · refine h.append (List.nodup_singleton id) ?_
    intro x hx hx1
    rw [List.mem_singleton] at hx1
    subst hx1
    exact hmem hx

/-- Helper: appending a fresh id to the order and inserting it into the key
set preserves the ordering invariant, provided order and key set agreed away
from that id. -/
theorem inv_append_insert (popups order : List Nat) (id : Nat)
    (ho : order.Nodup) (hp : popups.Nodup)
    (hm : ∀ x, x ≠ id → (x ∈ order ↔ x ∈ popups))
    (hid : id ∉ order) :
    (order ++ [id]).Nodup ∧ (insertKey id popups).Nodup ∧
      ∀ x, x ∈ order ++ [id] ↔ x ∈ insertKey id popups := by
  refine ⟨?_, nodup_insertKey id popups hp, ?_⟩
  · refine ho.append (List.nodup_singleton id) ?_
    intro x hx hx1
    rw [List.mem_singleton] at hx1
    subst hx1
    exact hid hx
  · intro x
    rw [List.mem_append, List.mem_singleton, mem_insertKey]
    by_cases hxe : x = id
    · simp [hxe]
    · simp only [hxe, or_false, false_or]
      exact hm x hxe

/-- Helper: `display_notification` preserves the ordering invariant for any
notification whose id matches its replaces_id when the latter is nonzero,
which is how the protocol server assigns ids. -/
theorem displayNotification_inv (n : Notification)
    (hn : n.replacesId = 0 ∨ n.id = n.replacesId)
    (s : ManagerState) (h : ManagerInv s) :
    ManagerInv (displayNotification n s).1 := by
  obtain ⟨ho, hp, hm⟩ := h
  have hcase :
      (displayNotification n s).1 =
        { popups := insertKey n.id s.popups,
          order := s.order.erase n.id ++ [n.id] } ∨
      (displayNotification n s).1 =
        { popups := insertKey n.id s.popups, order := s.order ++ [n.id] } ∧
        n.id ∉ s.popups := by
    unfold displayNotification
    by_cases hz : n.replacesId = 0
    · simp only [hz, ne_eq, not_true_eq_false, if_false, ite_not]
      by_cases hmem : n.id ∈ s.popups
      · left; simp [hmem]
      · right; simp [hmem]
    · rcases hn with h0 | hrid
      · exact absurd h0 hz
      · simp only [ne_eq, hz, not_false_eq_true, if_true, ← hrid]
        by_cases hmem : n.id ∈ s.popups
        · left; simp [hmem]
        · right; simp [hmem]
  rcases hcase with heq | ⟨heq, hnotin⟩
  · rw [heq]
    have res := inv_append_insert s.popups (s.order.erase n.id) n.id
      (ho.erase n.id) hp
      (fun x hx => by
        rw [ho.mem_erase_iff]
        constructor
        · exact fun h1 => (hm x).1 h1.2
        · exact fun h1 => ⟨hx, (hm x).2 h1⟩)
      (by rw [ho.mem_erase_iff]; simp)
    exact ⟨res.1, res.2.1, res.2.2⟩
  · rw [heq]
    have hid : n.id ∉ s.order := fun hc => hnotin ((hm n.id).1 hc)
    have res := inv_append_insert s.popups s.order n.id ho hp
      (fun x _ => hm x) hid
    exact ⟨res.1, res.2.1, res.2.2⟩

/-- Helper: `handle_popup_command` preserves the ordering invariant. -/
theorem handlePopupCommand_inv (c : PopupCommand) (s : ManagerState)
    (h : ManagerInv s) : ManagerInv (handlePopupCommand c s).1 := by
  obtain ⟨ho, hp, hm⟩ := h
  have herase : ∀ id : Nat,
      ManagerInv { popups := s.popups.erase id, order := s.order.erase id } := by
    intro id
    refine ⟨ho.erase id, hp.erase id, ?_⟩
    intro x
    rw [ho.mem_erase_iff, hp.mem_erase_iff]
    exact and_congr_right fun _ => hm x
  cases c with
  | close id =>
    by_cases hmem : id ∈ s.popups
    · have heq : (handlePopupCommand (PopupCommand.close id) s).1 =
          { popups := s.popups.erase id, order := s.order.erase id } := by
        simp [handlePopupCommand, hmem]
      rw [heq]; exact herase id
    · have heq : (handlePopupCommand (PopupCommand.close id) s).1 = s := by
        simp [handlePopupCommand, hmem]
      rw [heq]; exact ⟨ho, hp, hm⟩
  | actionInvoked id key =>
    by_cases hmem : id ∈ s.popups
    · have heq : (handlePopupCommand (PopupCommand.actionInvoked id key) s).1 =
          { popups := s.popups.erase id, order := s.order.erase id } := by
        simp [handlePopupCommand, hmem]
      rw [heq]; exact herase id
    · have heq : (handlePopupCommand (PopupCommand.actionInvoked id key) s).1 = s := by
        simp [handlePopupCommand, hmem]
      rw [heq]; exact ⟨ho, hp, hm⟩

/-- Helper: every notification the server forwards to the orchestrator has
replaces_id zero or an id equal to its replaces_id. -/
theorem notify_replaces_wf (a : NotifyArgs) (sOk : Bool) (s : ServerState)
    (n : Notification) (h : (notify a sOk s).2.1 = some n) :
    n.replacesId = 0 ∨ n.id = n.replacesId := by
  unfold notify at h
  by_cases hs : sOk
  · simp only [hs, if_true, Option.some_inj] at h
    subst h
    by_cases hr : a.replacesId = 0
    · exact Or.inl (by simp [buildNotification, hr])
    · exact Or.inr (by simp [buildNotification, hr])
  · simp [hs] at h

/-- Helper: one system step preserves the ordering invariant. -/
theorem sysStep_inv (st : SysState) (e : SysEvent)
    (h : ManagerInv st.manager) : ManagerInv (sysStep st e).manager := by
  cases e with
  | notifyCall a sOk =>
    rcases hm : (notify a sOk st.server).2.1 with _ | n
    · simpa [sysStep, hm] using h
    · have hwf := notify_replaces_wf a sOk st.server n hm
      simpa [sysStep, hm] using displayNotification_inv n hwf st.manager h
  | popupCmd c =>
    simpa [sysStep] using handlePopupCommand_inv c st.manager h

/-- Helper: the ordering invariant holds along any run started from an
invariant state. -/
theorem sysFold_inv (evs : List SysEvent) :
    ∀ st : SysState, ManagerInv st.manager →
      ManagerInv (evs.foldl sysStep st).manager := by
  induction evs with
  | nil => intro st h; exact h
  | cons e rest ih => intro st h; exact ih _ (sysStep_inv st e h)

/-- C2: after any sequence of Notify calls and close/action commands
processed by the orchestrator from process start, `popup_order` has no
duplicate ids and its elements are exactly the keys of the `popups` map. -/
theorem c2_order_invariant (evs : List SysEvent) :
    (sysRun evs).manager.order.Nodup ∧
    ∀ x, x ∈ (sysRun evs).manager.order ↔ x ∈ (sysRun evs).manager.popups := by
  have h := sysFold_inv evs initialSysState
    ⟨List.nodup_nil, List.nodup_nil, by simp [initialSysState, emptyManagerState]⟩
  exact ⟨h.1, h.2.2⟩

/-- Helper: after removing a key from the active map it can no longer be
found. -/
theorem lookup_removeActive (id : Nat) (l : List (Nat × Notification)) :
    (removeActive id l).lookup id = none := by
  rw [List.lookup_eq_none_iff]
  intro p hp
  rw [removeActive, List.mem_filter] at hp
  rw [bne_iff_ne]
  rw [bne_iff_ne] at hp
  exact fun h => hp.2 h.symm

/-- Helper: removing an absent key from the active map is a no-op. -/
theorem removeActive_eq_self (id : Nat) (l : List (Nat × Notification))
    (h : l.lookup id = none) : removeActive id l = l := by
  rw [List.lookup_eq_none_iff] at h
  rw [removeActive, List.filter_eq_self]
  intro p hp
  have := h p hp
  rw [bne_iff_ne] at this ⊢
  exact fun he => this he.symm

/-- Helper: an inserted binding is found by a later lookup. -/
theorem lookup_insertActive (id : Nat) (n : Notification)
    (l : List (Nat × Notification)) :
    (insertActive id n l).lookup id = some n := by
  unfold insertActive
  rw [List.lookup_append]
  have hn : (l.filter (fun p => p.1 != id)).lookup id = none :=
    lookup_removeActive id l
  rw [hn]
  simp

/-- C3: `CloseNotification` always succeeds; when the id is in the active
map it removes the entry and requests `NotificationClosed(id, 3)`, and when
it is absent the call is a pure no-op that still succeeds. -/
theorem c3_close_idempotent (s : ServerState) (id : Nat) :
    ((closeNotification id s).2.2 = Except.ok ()) ∧
    ((s.active.lookup id).isSome = true →
      (closeNotification id s).2.1 = [Effect.emitNotificationClosed id 3] ∧
      (closeNotification id s).1.active.lookup id = none) ∧
    ((s.active.lookup id).isSome = false →
      (closeNotification id s).1 = s ∧ (closeNotification id s).2.1 = []) := by
  unfold closeNotification
  by_cases hp : (s.active.lookup id).isSome
  · simp [hp, lookup_removeActive]
  · have hnone : s.active.lookup id = none := by
      cases h : s.active.lookup id
      · rfl
      · rw [h] at hp; simp at hp
    simp [hp, removeActive_eq_self id s.active hnone]

/-- Witness for `c3_close_idempotent`: a concrete active map containing id 4
and a lookup of absent id 9. -/
theorem c3_close_idempotent_witness :
    ((closeNotification 4
        { nextId := 5,
          active := [(4, buildNotification
            { appName := "a", replacesId := 0, appIcon := "", summary := "s",
              body := "", actions := [], urgencyHint := none,
              imagePathHint := none, residentHint := none,
              expireTimeout := 0 } 4)] }).2.1
      = [Effect.emitNotificationClosed 4 3]) ∧
    ((closeNotification 9 initialServerState).1 = initialServerState) := by
  constructor
  · exact ((c3_close_idempotent _ 4).2.1 (by rfl)).1
  · exact ((c3_close_idempotent initialServerState 9).2.2 (by rfl)).1

/-- Ids returned by a sequence of successful `Notify` calls, threading the
server state. -/
def notifyRunIds : List NotifyArgs → ServerState → List Nat
  | [], _ => []
  | a :: rest, s =>
    (match (notify a true s).2.2 with
      | Except.ok id => [id]
      | Except.error _ => []) ++ notifyRunIds rest (notify a true s).1

/-- Helper: with all replaces_id zero and no counter wrap, the run of ids is
the integer interval starting at the current counter. -/
theorem notifyRunIds_range (args : List NotifyArgs)
    (hall : ∀ x ∈ args, x.replacesId = 0) :
    ∀ (c : Nat) (act : List (Nat × Notification)),
      c + args.length < U32_MOD →
        notifyRunIds args { nextId := c, active := act }
          = List.range' c args.length 1 := by
  induction args with
  | nil => intro c act _; rfl
  | cons a rest ih =>
    intro c act h
    have ha : a.replacesId = 0 := hall a (by simp)
    have hmod : (c + 1) % U32_MOD = c + 1 :=
      Nat.mod_eq_of_lt (by simp only [List.length_cons] at h; omega)
    have hrest := ih (fun x hx => hall x (by simp [hx])) (c + 1)
      (insertActive c (buildNotification a c) act)
      (by simp only [List.length_cons] at h; omega)
    simp only [notifyRunIds, notify, ha, if_true, List.length_cons,
      List.range'_succ]
    simp only [ha, if_true] at hrest ⊢
    rw [hmod]
    simpa using hrest

/-- C4: from process start, a sequence of `Notify` calls with replaces_id 0
(shorter than the u32 range) returns the strictly increasing ids 1, 2, 3,
..., never 0; and a `Notify` call with nonzero replaces_id returns exactly
that replaces_id. -/
theorem c4_id_monotonic (args : List NotifyArgs)
    (hall : ∀ x ∈ args, x.replacesId = 0)
    (hlen : 1 + args.length < U32_MOD) :
    notifyRunIds args initialServerState = List.range' 1 args.length 1 ∧
    (notifyRunIds args initialServerState).Pairwise (· < ·) ∧
    0 ∉ notifyRunIds args initialServerState ∧
    (∀ (a : NotifyArgs) (s : ServerState), a.replacesId ≠ 0 →
      (notify a true s).2.2 = Except.ok a.replacesId) := by
  have hr : notifyRunIds args initialServerState
      = List.range' 1 args.length 1 := by
    have := notifyRunIds_range args hall 1 [] hlen
    simpa [initialServerState] using this
  refine ⟨hr, ?_, ?_, ?_⟩
  · rw [hr]
    exact List.pairwise_lt_range' 1 args.length 1 (by omega)
  · rw [hr]
    intro hmem
    rw [List.mem_range'] at hmem
    obtain ⟨i, _, hi⟩ := hmem
    omega
  · intro a s hrz
    simp [notify, hrz]

/-- Witness for `c4_id_monotonic`: two concrete replaces_id-0 calls return
ids 1 and 2. -/
theorem c4_id_monotonic_witness :
    notifyRunIds
      [{ appName := "a", replacesId := 0, appIcon := "", summary := "m",
         body := "", actions := [], urgencyHint := none, imagePathHint := none,
         residentHint := none, expireTimeout := -1 },
       { appName := "b", replacesId := 0, appIcon := "", summary := "m",
         body := "", actions := [], urgencyHint := none, imagePathHint := none,
         residentHint := none, expireTimeout := -1 }] initialServerState
      = [1, 2] :=
  (c4_id_monotonic _ (by intro x hx; simp at hx; rcases hx with h | h <;> simp [h])
    (by norm_num [U32_MOD])).1

/-- C10: when the forward to the orchestrator channel fails, `Notify`
returns an internal error and delivers nothing for display, yet the counter
increment and the active-map entry are kept, so a later `CloseNotification`
on the allocated id still finds it, removes it, succeeds, and requests
`NotificationClosed(id, 3)`. -/
theorem c10_no_rollback (a : NotifyArgs) (s : ServerState)
    (h0 : a.replacesId = 0) :
    ((notify a false s).2.2
      = Except.error "Internal error: Failed to queue notification for display") ∧
    ((notify a false s).2.1 = none) ∧
    ((notify a false s).1.nextId = (s.nextId + 1) % U32_MOD) ∧
    ((notify a false s).1.active.lookup s.nextId
      = some (buildNotification a s.nextId)) ∧
    ((closeNotification s.nextId (notify a false s).1).2.1
      = [Effect.emitNotificationClosed s.nextId 3]) ∧
    ((closeNotification s.nextId (notify a false s).1).2.2 = Except.ok ()) ∧
    ((closeNotification s.nextId (notify a false s).1).1.active.lookup s.nextId
      = none) := by
  have hlook : (notify a false s).1.active.lookup s.nextId
      = some (buildNotification a s.nextId) := by
    simp [notify, h0, lookup_insertActive]
  refine ⟨by simp [notify, h0], by simp [notify, h0], by simp [notify, h0],
    hlook, ?_, ?_, ?_⟩
  · unfold closeNotification
    simp [hlook, lookup_removeActive]
  · unfold closeNotification
    simp [hlook]
  · unfold closeNotification
    simp [hlook, lookup_removeActive]

/-- Witness for `c10_no_rollback` at a concrete call from process start. -/
theorem c10_no_rollback_witness :
    (notify
      { appName := "w", replacesId := 0, appIcon := "", summary := "m",
        body := "", actions := [], urgencyHint := none, imagePathHint := none,
        residentHint := none, expireTimeout := -1 } false initialServerState).2.2
      = Except.error "Internal error: Failed to queue notification for display" :=
  (c10_no_rollback _ initialServerState rfl).1

/-- C5 counterexample: the claim says `NotificationClosed(id, 2)` is
requested only if a popup with that id was removed.  Processing
`ActionInvoked(42, "default")` against a manager with no popups removes
nothing (the state is unchanged) yet still requests
`NotificationClosed(42, 2)`, because the handler spawns both emissions
before and independently of the membership check. -/
theorem c5_claim_counterexample :
    (handlePopupCommand (PopupCommand.actionInvoked 42 "default")
        emptyManagerState).1 = emptyManagerState ∧
    Effect.emitNotificationClosed 42 2 ∈
      (handlePopupCommand (PopupCommand.actionInvoked 42 "default")
        emptyManagerState).2 := by
  constructor
  · rfl
  · simp [handlePopupCommand, emptyManagerState]

/-- C5 (amended): processing `ActionInvoked(id, key)` always requests
`ActionInvoked(id, key)` followed by `NotificationClosed(id, 2)` — in that
order, and regardless of whether a popup with that id exists; the popup and
its order entry are removed exactly when present. -/
theorem c5_action_signals (id : Nat) (key : String) (s : ManagerState) :
    (∃ rest,
      (handlePopupCommand (PopupCommand.actionInvoked id key) s).2
        = Effect.emitActionInvoked id key ::
            Effect.emitNotificationClosed id 2 :: rest) ∧
    (id ∈ s.popups →
      (handlePopupCommand (PopupCommand.actionInvoked id key) s).1.popups
        = s.popups.erase id ∧
      (handlePopupCommand (PopupCommand.actionInvoked id key) s).1.order
        = s.order.erase id) ∧
    (id ∉ s.popups →
      (handlePopupCommand (PopupCommand.actionInvoked id key) s).1 = s) := by
  by_cases hmem : id ∈ s.popups
  · exact ⟨⟨[Effect.closePopupStarted id], by simp [handlePopupCommand, hmem]⟩,
      fun _ => by simp [handlePopupCommand, hmem],
      fun hc => absurd hmem hc⟩
  · exact ⟨⟨[], by simp [handlePopupCommand, hmem]⟩,
      fun hc => absurd hc hmem,
      fun _ => by simp [handlePopupCommand, hmem]⟩

/-- Witness for `c5_action_signals` on a concrete manager holding popup 3,
exercising the membership hypothesis. -/
theorem c5_action_signals_witness :
    (handlePopupCommand (PopupCommand.actionInvoked 3 "ok")
        { popups := [3], order := [3] }).1.popups = [] :=
  (((c5_action_signals 3 "ok" { popups := [3], order := [3] }).2.1)
    (by simp)).1.trans (by rfl)

/-- A plain notification used as concrete input: replaces nothing, default
urgency, server-default timeout. -/
def plainNotification : Notification :=
  { id := 1, appName := "app", replacesId := 0, appIcon := "", summary := "s",
    body := "", actions := [], expireTimeout := -1, urgency := .normal,
    imagePath := none, resident := false }

/-- C6 counterexample: the claim says every new notification is appended to
the orchestrator's history and the history is persisted, and every
close/action command removes the id from history and persists again.  The
manager state (struct NotificationManager) holds no history sequence at all,
and neither handler produces any persistence effect: displaying a concrete
notification and closing a concrete popup both run without any
`persistHistory` effect. -/
theorem c6_claim_counterexample :
    Effect.persistHistory ∉
      (displayNotification plainNotification emptyManagerState).2 ∧
    Effect.persistHistory ∉
      (handlePopupCommand (PopupCommand.close 1)
        { popups := [1], order := [1] }).2 := by
  constructor
  · simp [displayNotification, plainNotification, emptyManagerState]
  · simp [handlePopupCommand]

/-- C6 (amended): the orchestrator maintains no history and never persists:
no notification display and no close/action command ever produces a
persistence effect (the persistence helpers `save_notifications` and
`load_notifications` exist in the repository but are never called by the
orchestrator, whose state has no history field). -/
theorem c6_no_history_persistence (n : Notification) (c : PopupCommand)
    (s t : ManagerState) :
    Effect.persistHistory ∉ (displayNotification n s).2 ∧
    Effect.persistHistory ∉ (handlePopupCommand c t).2 := by
  constructor
  · simp only [displayNotification]
    split_ifs <;> simp
  · cases c with
    | close id =>
      by_cases hmem : id ∈ t.popups <;> simp [handlePopupCommand, hmem]
    | actionInvoked id key =>
      by_cases hmem : id ∈ t.popups <;> simp [handlePopupCommand, hmem]

/-- Helper: folding an accumulating sum equals the start value plus the
mapped sum. -/
theorem foldl_add_sum (f g : Nat → Int) :
    ∀ (l : List Nat) (b : Int),
      l.foldl (fun pos id => pos + f id + g id) b
        = b + (l.map (fun id => f id + g id)).sum := by
  intro l
  induction l with
  | nil => intro b; simp
  | cons a rest ih =>
    intro b
    rw [List.foldl_cons, ih (b + f a + g a), List.map_cons, List.sum_cons]
    ring

/-- Helper: the i-th target computed by the reposition loop pairs the i-th
id of the order with the start offset plus the accumulated heights of the
ids before it. -/
theorem repositionGo_getElem (popups : List Nat) (height : Nat → Int) :
    ∀ (l : List Nat) (y : Int) (i : Nat) (hi : i < l.length),
      (repositionGo popups height l y)[i]? =
        some (l.get ⟨i, hi⟩,
          y + ((l.take i).map
            (fun id => stackEntryHeight popups height id +
              NOTIFICATION_SPACING)).sum) := by
  intro l
  induction l with
  | nil => intro y i hi; simp at hi
  | cons a rest ih =>
    intro y i hi
    cases i with
    | zero => simp [repositionGo]
    | succ j =>
      have hj : j < rest.length := by simpa using hi
      simp only [repositionGo, List.getElem?_cons_succ, List.take_succ_cons,
        List.map_cons, List.sum_cons, List.get]
      rw [ih (y + stackEntryHeight popups height a + NOTIFICATION_SPACING) j hj]
      simp [add_assoc]

/-- C8: the next vertical position is the base margin plus the sum over the
current order of each slot's clamped-height-or-placeholder plus spacing, and
the reposition pass assigns the popup at position i of the order the offset
obtained by the same accumulation over the prefix before i — so the layout is
a deterministic function of the order and the measured heights. -/
theorem c8_layout (s : ManagerState) (height : Nat → Int) :
    (calculateNextVerticalPosition s height
      = BASE_MARGIN_TOP + (s.order.map
          (fun id => stackEntryHeight s.popups height id +
            NOTIFICATION_SPACING)).sum) ∧
    (∀ (i : Nat) (hi : i < s.order.length),
      (repositionTargets s height)[i]? =
        some (s.order.get ⟨i, hi⟩,
          calculateNextVerticalPosition
            { popups := s.popups, order := s.order.take i } height)) := by
  constructor
  · exact foldl_add_sum (stackEntryHeight s.popups height)
      (fun _ => NOTIFICATION_SPACING) s.order BASE_MARGIN_TOP
  · intro i hi
    rw [repositionTargets,
      repositionGo_getElem s.popups height s.order BASE_MARGIN_TOP i hi]
    have hcalc : calculateNextVerticalPosition
        { popups := s.popups, order := s.order.take i } height
        = BASE_MARGIN_TOP + ((s.order.take i).map
            (fun id => stackEntryHeight s.popups height id +
              NOTIFICATION_SPACING)).sum :=
      foldl_add_sum (stackEntryHeight s.popups height)
        (fun _ => NOTIFICATION_SPACING) (s.order.take i) BASE_MARGIN_TOP
    rw [hcalc]

/-- Witness for `c8_layout` on a concrete two-popup state where popup 5 has
measured height 40 and popup 9 is missing from the map: the second slot
starts below the first slot's clamped height plus spacing. -/
theorem c8_layout_witness :
    (repositionTargets { popups := [5], order := [5, 9] }
        (fun _ => (40 : Int)))[1]? = some (9, 70) := by
  have h := (c8_layout { popups := [5], order := [5, 9] }
    (fun _ => (40 : Int))).2 1 (by simp)
  rw [h]
  rfl

/-- Witness for `c9_closing_latch` on a concrete event sequence that mixes a
timer fire, clicks and explicit close calls. -/
theorem c9_closing_latch_witness :
    (([PopupEvent.timerFire, PopupEvent.closeClick, PopupEvent.closeCall,
        PopupEvent.actionClick "k", PopupEvent.closeCall].foldl (popupStep 7)
          (initialPopupMachine (some DEFAULT_TIMEOUT_MS))).destroyCount ≤ 1) ∧
    (([PopupEvent.timerFire, PopupEvent.closeClick, PopupEvent.closeCall,
        PopupEvent.actionClick "k", PopupEvent.closeCall].foldl (popupStep 7)
          (initialPopupMachine (some DEFAULT_TIMEOUT_MS))).sent.length ≤ 2) :=
  ⟨(c9_closing_latch 7 (some DEFAULT_TIMEOUT_MS) _).1,
   (c9_closing_latch 7 (some DEFAULT_TIMEOUT_MS) _).2.1⟩

/-- Witness for `c2_order_invariant` on a concrete run: one successful
Notify, one failed Notify, a close of the displayed popup and a stray close. -/
theorem c2_order_invariant_witness :
    (sysRun
      [SysEvent.notifyCall
        { appName := "w", replacesId := 0, appIcon := "", summary := "m",
          body := "", actions := [], urgencyHint := some 2,
          imagePathHint := none, residentHint := none,
          expireTimeout := -1 } true,
       SysEvent.notifyCall
        { appName := "w", replacesId := 0, appIcon := "", summary := "m",
          body := "", actions := [], urgencyHint := none,
          imagePathHint := none, residentHint := none,
          expireTimeout := 0 } false,
       SysEvent.popupCmd (PopupCommand.close 1),
       SysEvent.popupCmd (PopupCommand.close 77)]).manager.order.Nodup :=
  (c2_order_invariant _).1

end Kaneru
